import Mathlib

/-!
Shallow embedding of the ulak-api repository (TypeScript, AWS Lambda handlers)
for checking its natural-language specification.

Embedded source files:
  * src/handlers/fetch-contents.ts        (GET /contents handler)
  * src/unnamed/part_001                  (fetch-followings handler, JWT authorizer,
                                           send-emails scheduled handler, email analytics)
  * src/emails/render-email.ts + src/unnamed/part_002 (newsletter rendering)

External collaborators (Upstash Redis, Upstash Search, Supabase, SES, the
platform scraping strategies, Intl date formatting) are represented as explicit
environment records of functions, as the spec treats them as capabilities
specified only at their interface boundary.  JavaScript `Date` values travel
through Redis as serialized strings and are modelled as `String` timestamps.
-/

/-- The closed platform enum checked by the zod schema
`z.enum(["MEDIUM", "X", "INSTAGRAM"])` in both read handlers. -/
def validPlatform (p : String) : Bool :=
  p == "MEDIUM" || p == "X" || p == "INSTAGRAM"

/-- ContentItem as produced by the content fetcher strategies and consumed by
the newsletter template (title, url, optional publishedAt/imageUrl/description). -/
structure ContentItem where
  title : String
  url : String
  publishedAt : Option String
  imageUrl : Option String
  description : Option String
deriving DecidableEq

/-- FollowingUser as produced by the following fetcher strategies
(fullName, username, profileUrl, optional profilePictureUrl). -/
structure FollowingUser where
  fullName : String
  username : String
  profileUrl : String
  profilePictureUrl : Option String
deriving DecidableEq

/-- CachedFollowingsDTO: the value stored in Redis under
`followings:{platform}:{username}` - the followings list plus the fetch
timestamp (a serialized Date, modelled as a String). -/
structure CachedFollowingsDTO where
  followings : List FollowingUser
  fetchedAt : String
deriving DecidableEq

/-- The body shape `{ contents, fetchedAt }` used both as the Redis value under
`contents:{platform}:{username}:{since}` and as the JSON response body of the
fetch-contents endpoint (they are literally the same object in the source). -/
structure ContentsPayload where
  contents : List ContentItem
  fetchedAt : String
deriving DecidableEq

/-- One invocation of an upstream PlatformFetcher capability: the existence
check, the followings listing, or the content listing. -/
inductive FetcherCall where
  | userExists (platform username : String)
  | listFollowings (platform username : String)
  | listContent (platform username since : String)
deriving DecidableEq

/-! ## fetch-contents handler (src/handlers/fetch-contents.ts) -/

/-- Environment of the fetch-contents handler: the Redis cache state, the
platform content strategy (`ContentFetcherStrategyFactory.getStrategy(p).fetchContent`,
an external collaborator, so a capability that may fail), the current Date,
and whether the `redis.set` call throws (`none` = succeeds). -/
structure ContentsEnv where
  cache : String → Option ContentsPayload
  fetchContent : String → String → String → Except String (List ContentItem)
  now : String
  redisSetFails : Option String

/-- Request to the fetch-contents handler: path parameters (absent field =
missing from `event.pathParameters`, which fails zod validation) and the
optional `since` query string parameter. -/
structure ContentsRequest where
  platformName : Option String
  username : Option String
  since : Option String
deriving DecidableEq

/-- JSON body of a fetch-contents HTTP response. -/
inductive ContentsBody where
  | validationError
  | contentsOk (contents : List ContentItem) (fetchedAt : String)
deriving DecidableEq

/-- Result of one fetch-contents invocation: an HTTP response, or an unhandled
exception (the handler has no try/catch, so a throwing await escapes the
Lambda handler instead of producing a response). -/
inductive ContentsResult where
  | response (statusCode : Nat) (body : ContentsBody)
  | unhandledError (message : String)
deriving DecidableEq

/-- The composite cache key `contents:{platform}:{username}:{since}`. -/
def contentsKey (p u s : String) : String :=
  "contents:" ++ p ++ ":" ++ u ++ ":" ++ s

/-- `event.queryStringParameters?.since as SinceDate || "all"`: an absent or
empty (falsy) `since` defaults to "all"; any other string is used verbatim. -/
def effSince (since : Option String) : String :=
  match since with
  | none => "all"
  | some s => if s = "" then "all" else s

/-- Outcome of a fetch-contents invocation: the result plus the trace of
upstream fetcher invocations and Redis writes performed. -/
structure ContentsOutcome where
  result : ContentsResult
  calls : List FetcherCall
  cacheWrites : List (String × ContentsPayload)
deriving DecidableEq

/-- The fetch-contents handler: validate path parameters, consult the cache by
composite key, on hit return the cached payload verbatim, on miss call the
platform strategy, write the cache with 24h TTL and return the fresh payload.
Strategy failure and `redis.set` failure are not caught anywhere. -/
def fetchContentsHandler (env : ContentsEnv) (req : ContentsRequest) : ContentsOutcome :=
  match req.platformName, req.username with
  | some p, some u =>
    if validPlatform p then
      let since := effSince req.since
      match env.cache (contentsKey p u since) with
      | some entry =>
        { result := .response 200 (.contentsOk entry.contents entry.fetchedAt),
          calls := [], cacheWrites := [] }
      | none =>
        match env.fetchContent p u since with
        | .error msg =>
          { result := .unhandledError msg,
            calls := [.listContent p u since], cacheWrites := [] }
        | .ok contents =>
          match env.redisSetFails with
          | some msg =>
            { result := .unhandledError msg,
              calls := [.listContent p u since], cacheWrites := [] }
          | none =>
            { result := .response 200 (.contentsOk contents env.now),
              calls := [.listContent p u since],
              cacheWrites := [(contentsKey p u since, ⟨contents, env.now⟩)] }
    else { result := .response 400 .validationError, calls := [], cacheWrites := [] }
  | _, _ => { result := .response 400 .validationError, calls := [], cacheWrites := [] }

/-- Whether a fetch-contents request passes the zod schema
(`platformName` in the enum, `username` a present string). -/
def isValidContentsRequest (req : ContentsRequest) : Bool :=
  match req.platformName, req.username with
  | some p, some _ => validPlatform p
  | _, _ => false

/-! ## ScheduleEvaluator (shouldSendNewsletter and helpers, src/unnamed/part_001) -/

/-- The local wall-clock view that `Intl.DateTimeFormat` with a `timeZone`
option provides for the current instant: hour of day, weekday (mapped through
`dayMap` with Sun=0 .. Sat=6), and day of month, each as a function of the
timezone string.  A `ClockEnv` fixes one instant `now`; quantifying over it
quantifies over all instants and timezone behaviours. -/
structure ClockEnv where
  localHour : String → Nat
  localWeekday : String → Nat
  localDayOfMonth : String → Nat

/-- Reads a base-10 natural number from a list of characters (accumulator
style); any non-digit character makes the whole parse fail. -/
def parseNatDigits : List Char → Nat → Option Nat
  | [], acc => some acc
  | c :: cs, acc =>
    if c.isDigit then parseNatDigits cs (acc * 10 + (c.toNat - 48)) else none

/-- Models the JavaScript coercion `Number(s)` as used on the pieces of
`sendTime.split(":")`, at the precision the hour comparison needs:
`Number("")` is `0`; a string of digits is its numeric value; any other string
yields a value (NaN, a negative or a non-integer number) that can never be
strictly equal to the 0..23 integer hour produced by `parseInt`, so it is
modelled as `none` (and `none` compares unequal to every hour). -/
def jsNumber (s : String) : Option Nat :=
  match s.data with
  | [] => some 0
  | c :: cs => parseNatDigits (c :: cs) 0

/-- `sendTime.split(":")[0]`: the characters before the first colon
(the whole string when it has no colon). -/
def sendTimeHourStr (sendTime : String) : String :=
  String.mk (sendTime.data.takeWhile (fun c => c != ':'))

/-- `shouldSendNewsletter(frequency, sendTime, timezone)`: due only when the
current hour in the timezone equals the hour component of sendTime; `daily`
then always due, `weekly` additionally requires weekday Monday (`dayMap` value
1), `monthly` additionally requires day-of-month 1, anything else is not due. -/
def shouldSendNewsletter (clock : ClockEnv) (frequency sendTime timezone : String) : Bool :=
  if jsNumber (sendTimeHourStr sendTime) ≠ some (clock.localHour timezone) then false
  else if frequency = "daily" then true
  else if frequency = "weekly" then decide (clock.localWeekday timezone = 1)
  else if frequency = "monthly" then decide (clock.localDayOfMonth timezone = 1)
  else false

/-! ## fetch-followings handler (src/unnamed/part_001, lines 1-193) -/

/-- The denormalized document stored in the Upstash Search "followings" index:
a FollowingUser projection plus the `platformName` and `parentUsername` filter
dimensions. -/
structure FollowingDocument where
  fullName : String
  username : String
  profileUrl : String
  profilePictureUrl : String
  platformName : String
  parentUsername : String
deriving DecidableEq

/-- Environment of the fetch-followings handler: the Redis cache state, the
search index state (document id to document), an abstract full-text relevance
predicate for the index, the platform strategy capabilities
(`isUserExists` / `getFollowings`), the current Date, and whether the
`redis.set` / `index.upsert` calls throw (`none` = succeed). -/
structure FollowingsEnv where
  cache : String → Option CachedFollowingsDTO
  indexDocs : List (String × FollowingDocument)
  queryMatches : String → FollowingDocument → Bool
  isUserExists : String → String → Bool
  getFollowings : String → String → Except String (List FollowingUser)
  now : String
  redisSetFails : Option String
  indexUpsertFails : Option String

/-- Request to the fetch-followings handler: path parameters plus the optional
`search` query string parameter. -/
structure FollowingsRequest where
  platformName : Option String
  username : Option String
  search : Option String
deriving DecidableEq

/-- JSON body of a fetch-followings HTTP response. -/
inductive FollowingsBody where
  | validationError
  | userNotFound
  | followingsOk (followings : List FollowingUser) (fetchedAt : String)
  | internalError (message : String)
deriving DecidableEq

/-- Outcome of one fetch-followings invocation: status code and body, the
trace of upstream fetcher invocations, the Redis writes performed, and the
search index state after the invocation. -/
structure FollowingsOutcome where
  statusCode : Nat
  body : FollowingsBody
  calls : List FetcherCall
  cacheWrites : List (String × CachedFollowingsDTO)
  finalIndex : List (String × FollowingDocument)
deriving DecidableEq

/-- The composite cache key `followings:{platform}:{username}`
(FOLLOWINGS_KEY_PREFIX plus platform and username). -/
def followingsKey (p u : String) : String :=
  "followings:" ++ p ++ ":" ++ u

/-- JavaScript whitespace characters relevant to `String.prototype.trim`
on the inputs this handler sees. -/
def isJsSpace (c : Char) : Bool :=
  c == ' ' || c == '\t' || c == '\n' || c == '\r'

/-- `searchQuery.trim()`: strip leading and trailing whitespace. -/
def trimChars (s : String) : String :=
  String.mk (((s.data.dropWhile isJsSpace).reverse.dropWhile isJsSpace).reverse)

/-- `${platformName}:${username}:${following.username}`, the search document id. -/
def followingDocId (platformName parentUsername followingUsername : String) : String :=
  platformName ++ ":" ++ parentUsername ++ ":" ++ followingUsername

/-- The document built for one following in `storeFollowingsForSearch`:
`profilePictureUrl || ""` collapses a missing picture to the empty string. -/
def mkFollowingDocument (platformName parentUsername : String) (f : FollowingUser) : FollowingDocument :=
  { fullName := f.fullName, username := f.username, profileUrl := f.profileUrl,
    profilePictureUrl := f.profilePictureUrl.getD (""),
    platformName := platformName, parentUsername := parentUsername }

/-- Modelled from the spec: the SearchIndex upsert of one document
(`index.upsert`, an external Upstash Search collaborator whose client code is
not part of this repository) - overwrite the document with this id if present,
otherwise add it. -/
def upsertDoc (docs : List (String × FollowingDocument)) (id : String) (d : FollowingDocument) :
    List (String × FollowingDocument) :=
  if docs.any (fun x => x.1 == id) then
    docs.map (fun x => if x.1 == id then (id, d) else x)
  else docs ++ [(id, d)]

/-- `storeFollowingsForSearch`: build one document per following and upsert
them all into the "followings" index. -/
def storeFollowingsForSearch (docs : List (String × FollowingDocument))
    (platformName username : String) (followings : List FollowingUser) :
    List (String × FollowingDocument) :=
  followings.foldl
    (fun acc f =>
      upsertDoc acc (followingDocId platformName username f.username)
        (mkFollowingDocument platformName username f))
    docs

/-- The projection of a search document back to a FollowingUser in
`searchFollowings`: `profilePictureUrl || undefined` maps the empty string
back to a missing picture. -/
def projectDoc (d : FollowingDocument) : FollowingUser :=
  { fullName := d.fullName, username := d.username, profileUrl := d.profileUrl,
    profilePictureUrl := if d.profilePictureUrl = "" then none else some d.profilePictureUrl }

/-- `searchFollowings`: query the index with the free-text query and the
filter `AND [platformName equals, parentUsername equals]`, limit 1000, and
project the documents back to FollowingUser values.  The filtered free-text
query itself is an external Upstash Search capability; it is modelled from the
spec (SearchIndex supports "upsert of documents and filtered free-text
query") as: exactly the stored documents that match the query and satisfy
both equality filters. -/
def searchFollowings (docs : List (String × FollowingDocument))
    (queryMatches : String → FollowingDocument → Bool)
    (platformName username searchQuery : String) : List FollowingUser :=
  ((((docs.map Prod.snd).filter
      (fun d => queryMatches searchQuery d
        && decide (d.platformName = platformName)
        && decide (d.parentUsername = username))).take 1000).map projectDoc)

/-- The shared live-fetch tail of both branches of the fetch-followings
handler (the two structurally identical try/catch blocks): call
`getFollowings`, write the cache with 24h TTL, upsert the search index, then
return either the filtered search results (search branch) or the raw
followings (plain branch); any thrown error is caught and returned as a 500
`internal_error` response. -/
def liveFetchFollowings (env : FollowingsEnv) (p u : String) (searchQuery : Option String) :
    FollowingsOutcome :=
  match env.getFollowings p u with
  | .error msg =>
    { statusCode := 500, body := .internalError msg,
      calls := [.userExists p u, .listFollowings p u], cacheWrites := [],
      finalIndex := env.indexDocs }
  | .ok followings =>
    match env.redisSetFails with
    | some msg =>
      { statusCode := 500, body := .internalError msg,
        calls := [.userExists p u, .listFollowings p u], cacheWrites := [],
        finalIndex := env.indexDocs }
    | none =>
      match env.indexUpsertFails with
      | some msg =>
        { statusCode := 500, body := .internalError msg,
          calls := [.userExists p u, .listFollowings p u],
          cacheWrites := [(followingsKey p u, ⟨followings, env.now⟩)],
          finalIndex := env.indexDocs }
      | none =>
        let newIndex := storeFollowingsForSearch env.indexDocs p u followings
        match searchQuery with
        | some q =>
          { statusCode := 200,
            body := .followingsOk (searchFollowings newIndex env.queryMatches p u q) env.now,
            calls := [.userExists p u, .listFollowings p u],
            cacheWrites := [(followingsKey p u, ⟨followings, env.now⟩)],
            finalIndex := newIndex }
        | none =>
          { statusCode := 200, body := .followingsOk followings env.now,
            calls := [.userExists p u, .listFollowings p u],
            cacheWrites := [(followingsKey p u, ⟨followings, env.now⟩)],
            finalIndex := newIndex }

/-- The fetch-followings handler: validate path parameters, resolve the
strategy, always check `isUserExists` first (404 when absent), then either
the search-query branch (cache presence as an indexed-anything signal, search
results paired with the cached `fetchedAt`, falling back to a live fetch) or
the plain branch (cache hit returned verbatim, live fetch on miss). -/
def fetchFollowingsHandler (env : FollowingsEnv) (req : FollowingsRequest) : FollowingsOutcome :=
  match req.platformName, req.username with
  | some p, some u =>
    if validPlatform p then
      if env.isUserExists p u = false then
        { statusCode := 404, body := .userNotFound,
          calls := [.userExists p u], cacheWrites := [], finalIndex := env.indexDocs }
      else
        match req.search.map trimChars with
        | some q =>
          if q = "" then
            -- an all-whitespace search parameter trims to "", which is falsy,
            -- so the handler takes the plain (no search) branch
            match env.cache (followingsKey p u) with
            | some cached =>
              { statusCode := 200,
                body := .followingsOk cached.followings cached.fetchedAt,
                calls := [.userExists p u], cacheWrites := [], finalIndex := env.indexDocs }
            | none => liveFetchFollowings env p u none
          else
            match env.cache (followingsKey p u) with
            | some cached =>
              let searchResults := searchFollowings env.indexDocs env.queryMatches p u q
              if 0 < searchResults.length ∨ cached.fetchedAt ≠ "" then
                { statusCode := 200,
                  body := .followingsOk searchResults cached.fetchedAt,
                  calls := [.userExists p u], cacheWrites := [], finalIndex := env.indexDocs }
              else liveFetchFollowings env p u (some q)
            | none => liveFetchFollowings env p u (some q)
        | none =>
          match env.cache (followingsKey p u) with
          | some cached =>
            { statusCode := 200,
              body := .followingsOk cached.followings cached.fetchedAt,
              calls := [.userExists p u], cacheWrites := [], finalIndex := env.indexDocs }
          | none => liveFetchFollowings env p u none
    else
      { statusCode := 400, body := .validationError,
        calls := [], cacheWrites := [], finalIndex := env.indexDocs }
  | _, _ =>
    { statusCode := 400, body := .validationError,
      calls := [], cacheWrites := [], finalIndex := env.indexDocs }

/-! ## send-emails scheduled handler (src/unnamed/part_001, lines 247-581)
    and email analytics (lines 587-672) -/

/-- One row of `newsletter_preferences_view` as fetched by the handler
(already filtered to `newsletter_enabled = true` by the query). -/
structure NewsletterPreference where
  newsletter_preference_id : String
  profile_id : String
  user_id : String
  email : String
  username : String
  timezone : String
  language : String
  platform : String
  followings : List String
  newsletter_enabled : Bool
  frequency : String
  send_time : String
deriving DecidableEq

/-- The dynamically-typed `contents` field of a per-pair retrieval result.
`getContentsByPlatformAndUsername` returns the parsed JSON body of the
/contents endpoint, which is the object `{ contents, fetchedAt }`, not an
array; the code stores `contents || []`, so a successful retrieval stores that
object (`obj`) while a failed one stores a real empty array (`arr []`).
Downstream `.length` and `.map` behave differently on the two shapes. -/
inductive JsContents where
  | arr (items : List ContentItem)
  | obj (resp : ContentsPayload)
deriving DecidableEq

/-- One per-(platform, username) retrieval result inside a recipient's digest
(the element shape of the `followings` array passed to the email template). -/
structure FollowingContent where
  username : String
  platform : String
  contents : JsContents
deriving DecidableEq

/-- JavaScript `.length` on the `contents` field: the length of a real array,
or `undefined` (modelled `none`, which propagates like NaN through sums) on
the plain response object. -/
def jsContentsLength : JsContents → Option Nat
  | .arr items => some items.length
  | .obj _ => none

/-- `followings.reduce((sum, f) => sum + f.contents.length, 0)`: the total
content count, NaN (`none`) as soon as any pair holds the non-array object. -/
def totalContentsCount (fs : List FollowingContent) : Option Nat :=
  fs.foldl
    (fun acc f =>
      match acc, jsContentsLength f.contents with
      | some a, some b => some (a + b)
      | _, _ => none)
    (some 0)

/-- Whether some pair of the digest carries the raw response object in its
`contents` field. -/
def hasObjContents (fs : List FollowingContent) : Bool :=
  fs.any (fun f => match f.contents with | .obj _ => true | .arr _ => false)

/-- `renderNewsletterEmail` (src/emails/render-email.ts plus the
NewsletterEmail component in src/unnamed/part_002): builds the digest markup
by iterating the followings and, for each entry whose `contents.length` is not
0, calling `following.contents.map(...)`.  When `contents` is the raw response
object (every successful retrieval, see `JsContents`), `.length` is undefined
(not 0) and `.map` is not a function, so rendering throws a TypeError; with
only real arrays it succeeds.  The markup text itself is irrelevant to every
claim and is collapsed to a placeholder. -/
def renderNewsletterEmail (fs : List FollowingContent) : Except String String :=
  if hasObjContents fs then .error ("following.contents.map is not a function")
  else .ok ("html")

/-- `s || d` for strings: JavaScript's falsy-empty-string defaulting. -/
def jsOr (s d : String) : String := if s = "" then d else s

/-- One `email_analytics` row as pushed into `analyticsData` (the wall-clock
fields `sent_at` and `processing_time_ms` are real-time readings and are not
modelled). -/
structure EmailAnalyticsRecord where
  email : String
  user_id : Option String
  status : String
  error_message : Option String
  followings_count : Nat
  total_contents_count : Option Nat
  platforms : List String
  frequency : String
  timezone : String
  send_time : String
deriving DecidableEq

/-- Environment of the send-emails handler: the local-clock view of the
current instant, the /contents HTTP call per (platform, username) - an error
is any non-ok response or network failure - and the SES send per recipient
email address. -/
structure SendEnv where
  clock : ClockEnv
  getContents : String → String → Except String ContentsPayload
  sesSend : String → Except String Unit

/-- Whether `shouldSendNewsletter` accepts this preference at the current
instant. -/
def isDue (clock : ClockEnv) (p : NewsletterPreference) : Bool :=
  shouldSendNewsletter clock p.frequency p.send_time p.timezone

/-- The `skipped` analytics record pushed while filtering: zero counts and
the preference's own platform/frequency/timezone/send_time. -/
def mkSkippedRecord (p : NewsletterPreference) : EmailAnalyticsRecord :=
  { email := p.email, user_id := some p.user_id, status := "skipped",
    error_message := none, followings_count := 0, total_contents_count := some 0,
    platforms := [p.platform], frequency := p.frequency, timezone := p.timezone,
    send_time := p.send_time }

/-- The skipped-preference records accumulated during the due filter, in
preference order. -/
def skippedRecords (clock : ClockEnv) (prefs : List NewsletterPreference) :
    List EmailAnalyticsRecord :=
  (prefs.filter (fun p => !(isDue clock p))).map mkSkippedRecord

/-- `preferencesToSend`: the due preferences. -/
def preferencesToSend (clock : ClockEnv) (prefs : List NewsletterPreference) :
    List NewsletterPreference :=
  prefs.filter (isDue clock)

/-- One step of building `groupedByUser`: append the preference to the list
under its email key, creating the key at the end on first sight (JavaScript
Map preserves key insertion order). -/
def insertGrouped (acc : List (String × List NewsletterPreference))
    (p : NewsletterPreference) : List (String × List NewsletterPreference) :=
  match acc with
  | [] => [(p.email, [p])]
  | (k, ps) :: rest =>
    if k = p.email then (k, ps ++ [p]) :: rest
    else (k, ps) :: insertGrouped rest p

/-- `groupedByUser`: group the due preferences by recipient email, preserving
both key insertion order and per-key preference order. -/
def groupByEmail (prefs : List NewsletterPreference) :
    List (String × List NewsletterPreference) :=
  prefs.foldl insertGrouped []

/-- `groupedByUser.get(email) || []` on the association-list model. -/
def findGroup (groups : List (String × List NewsletterPreference)) (e : String) :
    List NewsletterPreference :=
  match groups with
  | [] => []
  | (k, ps) :: rest => if k = e then ps else findGroup rest e

/-- One per-pair retrieval inside a recipient's fan-out: on success the entry
stores the raw response object (`contents || []` keeps the truthy object), on
any thrown error the catch stores a real empty array.  Either way the entry is
present, so a failing pair never removes itself from the digest. -/
def fetchPairContents (env : SendEnv) (p : NewsletterPreference) : FollowingContent :=
  match env.getContents p.platform p.username with
  | .ok resp => { username := p.username, platform := p.platform, contents := .obj resp }
  | .error _ => { username := p.username, platform := p.platform, contents := .arr [] }

/-- `[...new Set(xs)]`: dedupe preserving first occurrence order. -/
def dedupStrings (l : List String) : List String :=
  l.foldl (fun acc x => if x ∈ acc then acc else acc ++ [x]) []

/-- `emailData`: one `(email, followings)` entry per grouped recipient; the
inner Promise.allSettled entries are always fulfilled because the per-pair
callback catches every error, so no pair is dropped, and the outer entries are
likewise always fulfilled. -/
def buildEmailData (env : SendEnv) (prefs : List NewsletterPreference) :
    List (String × List FollowingContent) :=
  (groupByEmail (preferencesToSend env.clock prefs)).map
    (fun g => (g.1, g.2.map (fetchPairContents env)))

/-- The per-recipient result of the send fan-out: the fulfilled value
`{ email, success, error? }` plus the analytics record pushed for it. -/
structure SendAttempt where
  email : String
  success : Bool
  sendError : Option String
  record : EmailAnalyticsRecord
deriving DecidableEq

/-- One recipient's send: re-read the recipient's preference group
(`groupedByUser.get(email)`), take its first preference for the
frequency/timezone/send_time analytics fields (with `||`-defaults), render the
digest, send it via SES, and push a `sent` or `failed` analytics record; both
render and send failures are caught by the per-recipient try/catch. -/
def runSendForRecipient (env : SendEnv)
    (groups : List (String × List NewsletterPreference))
    (email : String) (followings : List FollowingContent) : SendAttempt :=
  let userPref : Option NewsletterPreference := (findGroup groups email).head?
  let uid : Option String := userPref.map (fun p => p.user_id)
  let freq : String := match userPref with | some p => jsOr p.frequency ("daily") | none => "daily"
  let tzv : String := match userPref with | some p => jsOr p.timezone ("UTC") | none => "UTC"
  let st : String := match userPref with | some p => jsOr p.send_time ("00:00") | none => "00:00"
  let platforms := dedupStrings (followings.map (fun f => f.platform))
  let failedWith : String → SendAttempt := fun msg =>
    { email := email, success := false, sendError := some msg,
      record := { email := email, user_id := uid, status := "failed",
                  error_message := some msg, followings_count := followings.length,
                  total_contents_count := totalContentsCount followings,
                  platforms := platforms, frequency := freq, timezone := tzv,
                  send_time := st } }
  match renderNewsletterEmail followings with
  | .error msg => failedWith msg
  | .ok _ =>
    match env.sesSend email with
    | .error msg => failedWith msg
    | .ok _ =>
      { email := email, success := true, sendError := none,
        record := { email := email, user_id := uid, status := "sent",
                    error_message := none, followings_count := followings.length,
                    total_contents_count := totalContentsCount followings,
                    platforms := platforms, frequency := freq, timezone := tzv,
                    send_time := st } }

/-- The JSON body shape of a send-emails run. -/
inductive SendEmailsResponse where
  | noPreferences
  | noneScheduled
  | noValidEmails
  | summary (successCount failureCount : Nat) (errors : List (String × String))
deriving DecidableEq

/-- Outcome of a send-emails run: the response body, the HTTP-style status
code, and the batch handed to `trackBatchEmailAnalytics` (empty when it was
never invoked).  Concurrent completion order of the per-recipient pushes into
`analyticsData` is not modelled: records appear in filter order (skipped) then
recipient order (sent/failed); every claim here is order-insensitive. -/
structure SendEmailsOutcome where
  response : SendEmailsResponse
  statusCode : Nat
  recordedAnalytics : List EmailAnalyticsRecord
deriving DecidableEq

/-- Whether a recipient's send fails: rendering throws because some pair holds
the raw response object, or the SES send fails. -/
def recipientSendFails (env : SendEnv) (e : String) (ps : List NewsletterPreference) : Bool :=
  hasObjContents (ps.map (fetchPairContents env))
    || (match env.sesSend e with | .ok _ => false | .error _ => true)

/-- The `sendResults` of a full run: one `runSendForRecipient` result per
`emailData` entry (Promise.allSettled entries are always fulfilled because the
per-recipient callback catches render and send errors). -/
def sendAttempts (env : SendEnv) (prefs : List NewsletterPreference) : List SendAttempt :=
  (buildEmailData env prefs).map
    (fun g => runSendForRecipient env (groupByEmail (preferencesToSend env.clock prefs)) g.1 g.2)

/-- The `errors` array of a run: one `(email, error)` pair per unfulfilled or
unsuccessful send result, with `result.value.error || "Unknown error"`
defaulting (every result is fulfilled, see `buildEmailData`). -/
def sendErrors (env : SendEnv) (prefs : List NewsletterPreference) : List (String × String) :=
  ((sendAttempts env prefs).filter (fun a => !a.success)).map
    (fun a => (a.email, jsOr (a.sendError.getD ("")) "Unknown error"))

/-- The `analyticsData` array at the end of a full run: the skipped records
pushed during filtering plus one sent/failed record per recipient. -/
def analyticsData (env : SendEnv) (prefs : List NewsletterPreference) :
    List EmailAnalyticsRecord :=
  skippedRecords env.clock prefs ++ (sendAttempts env prefs).map SendAttempt.record

/-- The send-emails scheduled handler (the preference query's own DB-error
branch, a straight 500, is outside every claim and not modelled; `prefs` is
the successfully fetched, enabled-only view).  Early returns: no preferences
at all, or no due preference - both return 200 without ever invoking
`trackBatchEmailAnalytics`.  Otherwise: group by recipient, fan out retrieval
and send, count fulfilled successes, collect errors, track the analytics
batch, and answer 207 when any recipient failed, else 200. -/
def sendEmailsHandler (env : SendEnv) (prefs : List NewsletterPreference) : SendEmailsOutcome :=
  if prefs.length = 0 then
    { response := .noPreferences, statusCode := 200, recordedAnalytics := [] }
  else if (preferencesToSend env.clock prefs).length = 0 then
    { response := .noneScheduled, statusCode := 200, recordedAnalytics := [] }
  else if (buildEmailData env prefs).length = 0 then
    { response := .noValidEmails, statusCode := 200, recordedAnalytics := [] }
  else
    { response := .summary ((sendAttempts env prefs).filter (fun a => a.success)).length
        (sendErrors env prefs).length (sendErrors env prefs),
      statusCode := if 0 < (sendErrors env prefs).length then 207 else 200,
      recordedAnalytics :=
        if 0 < (analyticsData env prefs).length then analyticsData env prefs else [] }

/-! ## Concrete environments used by witnesses and counterexamples -/

/-- A clock instant at local hour 9, Monday, day-of-month 1 in every timezone. -/
def wClock : ClockEnv := ⟨fun _ => 9, fun _ => 1, fun _ => 1⟩

/-- A clock instant at local hour 10 in every timezone (nothing with a 09:xx
send time is due). -/
def wClockOff : ClockEnv := ⟨fun _ => 10, fun _ => 1, fun _ => 1⟩

/-- A concrete following used by several concrete environments. -/
def wBob : FollowingUser :=
  { fullName := "Bob B", username := "bob", profileUrl := "https://medium.com/@bob",
    profilePictureUrl := none }

/-- A concrete cached followings snapshot. -/
def wCachedDTO : CachedFollowingsDTO :=
  { followings := [wBob], fetchedAt := "2024-01-08T09:00:00.000Z" }

/-- Followings environment with a warm cache for MEDIUM/alice and an existing
user; every write succeeds. -/
def wFEnvHit : FollowingsEnv :=
  { cache := fun k => if k = "followings:MEDIUM:alice" then some wCachedDTO else none,
    indexDocs := [],
    queryMatches := fun _ _ => true,
    isUserExists := fun _ _ => true,
    getFollowings := fun _ _ => .ok [],
    now := "2024-01-09T09:00:00.000Z",
    redisSetFails := none, indexUpsertFails := none }

/-- Contents environment with a warm cache for `contents:MEDIUM:alice:all`. -/
def wCEnvHit : ContentsEnv :=
  { cache := fun k => if k = "contents:MEDIUM:alice:all" then some ⟨[], "t0"⟩ else none,
    fetchContent := fun _ _ _ => .ok [],
    now := "t1", redisSetFails := none }

/-- Followings environment with a cold cache, a succeeding upstream fetch and
a throwing `redis.set`. -/
def wFEnvRedisFail : FollowingsEnv :=
  { cache := fun _ => none,
    indexDocs := [],
    queryMatches := fun _ _ => true,
    isUserExists := fun _ _ => true,
    getFollowings := fun _ _ => .ok [wBob],
    now := "t1",
    redisSetFails := some ("redis: connection refused"), indexUpsertFails := none }

/-- Followings environment with a cold cache, a succeeding upstream fetch, a
succeeding `redis.set` and a throwing `index.upsert`. -/
def wFEnvUpsertFail : FollowingsEnv :=
  { cache := fun _ => none,
    indexDocs := [],
    queryMatches := fun _ _ => true,
    isUserExists := fun _ _ => true,
    getFollowings := fun _ _ => .ok [wBob],
    now := "t1",
    redisSetFails := none, indexUpsertFails := some ("search: upsert failed") }

/-- Contents environment with a cold cache, a succeeding upstream fetch and a
throwing `redis.set`. -/
def wCEnvRedisFail : ContentsEnv :=
  { cache := fun _ => none,
    fetchContent := fun _ _ _ => .ok [],
    now := "t1", redisSetFails := some ("redis: connection refused") }

/-- A newsletter preference due at wClock (daily, 09:00). -/
def wPrefA : NewsletterPreference :=
  { newsletter_preference_id := "np1", profile_id := "pr1", user_id := "u1",
    email := "a@x.io", username := "alice", timezone := "UTC", language := "en",
    platform := "medium", followings := [], newsletter_enabled := true,
    frequency := "daily", send_time := "09:00" }

/-- A newsletter preference not due at wClock (daily, 08:00). -/
def wPrefB : NewsletterPreference :=
  { newsletter_preference_id := "np2", profile_id := "pr2", user_id := "u2",
    email := "b@x.io", username := "bella", timezone := "UTC", language := "en",
    platform := "medium", followings := [], newsletter_enabled := true,
    frequency := "daily", send_time := "08:00" }

/-- A second due preference for the same recipient as wPrefA but on another
platform and with different frequency/timezone/send_time fields (weekly at
09:00 is due at wClock because wClock's weekday is Monday). -/
def wPrefA2 : NewsletterPreference :=
  { newsletter_preference_id := "np3", profile_id := "pr1", user_id := "u1",
    email := "a@x.io", username := "alice_x", timezone := "Asia/Tokyo", language := "en",
    platform := "x", followings := [], newsletter_enabled := true,
    frequency := "weekly", send_time := "9:30" }

/-- A due preference for a second recipient. -/
def wPrefC : NewsletterPreference :=
  { newsletter_preference_id := "np4", profile_id := "pr4", user_id := "u4",
    email := "c@x.io", username := "carol", timezone := "UTC", language := "en",
    platform := "instagram", followings := [], newsletter_enabled := true,
    frequency := "daily", send_time := "09:00" }

/-- Send environment at the off-hour instant (used by the C3 counterexample);
every content retrieval fails, every SES send succeeds. -/
def wSendEnvOff : SendEnv :=
  { clock := wClockOff,
    getContents := fun _ _ => .error ("failed to get contents"),
    sesSend := fun _ => .ok () }

/-- Send environment at the due instant; every content retrieval fails
(as with unauthenticated /contents calls), every SES send succeeds. -/
def wSendEnv : SendEnv :=
  { clock := wClock,
    getContents := fun _ _ => .error ("failed to get contents"),
    sesSend := fun _ => .ok () }

/-- Send environment at the due instant where the SES send fails for
recipient c@x.io only. -/
def wSendEnvSesFail : SendEnv :=
  { clock := wClock,
    getContents := fun _ _ => .error ("failed to get contents"),
    sesSend := fun e => if e = "c@x.io" then .error ("SES down") else .ok () }

/-- Send environment at the due instant where every content retrieval
succeeds with zero content items and every SES send would succeed. -/
def wSendEnvEmptyOk : SendEnv :=
  { clock := wClock,
    getContents := fun _ _ => .ok { contents := [], fetchedAt := "t0" },
    sesSend := fun _ => .ok () }

/-- An indexed document belonging to MEDIUM/alice. -/
def wDocGood : FollowingDocument :=
  { fullName := "Jamie M", username := "jamie", profileUrl := "https://medium.com/@jamie",
    profilePictureUrl := "", platformName := "MEDIUM", parentUsername := "alice" }

/-- An indexed document belonging to a different parent username. -/
def wDocOther : FollowingDocument :=
  { fullName := "Jamie M", username := "jamie", profileUrl := "https://medium.com/@jamie",
    profilePictureUrl := "", platformName := "MEDIUM", parentUsername := "zed" }

/-- Followings environment for the search branch: warm cache for MEDIUM/alice,
an index holding one document of alice and one of another parent, a relevance
predicate that matches everything. -/
def wFEnvSearch : FollowingsEnv :=
  { cache := fun k => if k = "followings:MEDIUM:alice" then some wCachedDTO else none,
    indexDocs := [("MEDIUM:alice:jamie", wDocGood), ("MEDIUM:zed:jamie", wDocOther)],
    queryMatches := fun _ _ => true,
    isUserExists := fun _ _ => true,
    getFollowings := fun _ _ => .ok [],
    now := "t1",
    redisSetFails := none, indexUpsertFails := none }

/-! ## General list lemmas used by the claim proofs -/

theorem lengthFilterNotAdd {α : Type} (p : α → Bool) (l : List α) :
    (l.filter (fun x => !(p x))).length + (l.filter p).length = l.length := by
  induction l with
  | nil => rfl
  | cons x xs ih => cases hpx : p x <;> simp [List.filter_cons, hpx] <;> omega

theorem lengthFilterMap {α β : Type} (f : α → β) (p : β → Bool) (l : List α) :
    ((l.map f).filter p).length = (l.filter (fun x => p (f x))).length := by
  induction l with
  | nil => rfl
  | cons x xs ih => cases hpx : p (f x) <;> simp [List.filter_cons, hpx, ih]

theorem filterCongrOn {α : Type} {p q : α → Bool} {l : List α}
    (h : ∀ x ∈ l, p x = q x) : l.filter p = l.filter q := by
  induction l with
  | nil => rfl
  | cons x xs ih =>
    have hx := h x (List.mem_cons_self x xs)
    have hxs : ∀ y ∈ xs, p y = q y := fun y hy => h y (List.mem_cons_of_mem x hy)
    rw [List.filter_cons, List.filter_cons, hx, ih hxs]

/-! ## Lemmas about the recipient grouping -/

theorem insertGrouped_ne_nil (acc : List (String × List NewsletterPreference))
    (p : NewsletterPreference) : insertGrouped acc p ≠ [] := by
  cases acc with
  | nil => simp [insertGrouped]
  | cons g rest =>
    obtain ⟨k, ps⟩ := g
    simp only [insertGrouped]
    split <;> simp

theorem foldl_insertGrouped_ne_nil (l : List NewsletterPreference) :
    ∀ acc, acc ≠ [] → l.foldl insertGrouped acc ≠ [] := by
  induction l with
  | nil => intro acc h; simpa using h
  | cons x xs ih =>
    intro acc _
    simp only [List.foldl_cons]
    exact ih _ (insertGrouped_ne_nil acc x)

theorem groupByEmail_ne_nil {l : List NewsletterPreference} (h : l ≠ []) :
    groupByEmail l ≠ [] := by
  cases l with
  | nil => exact absurd rfl h
  | cons x xs =>
    unfold groupByEmail
    simp only [List.foldl_cons]
    exact foldl_insertGrouped_ne_nil xs _ (insertGrouped_ne_nil [] x)

theorem mem_keys_insertGrouped {acc : List (String × List NewsletterPreference)}
    {p : NewsletterPreference} {x : String}
    (h : x ∈ (insertGrouped acc p).map Prod.fst) :
    x ∈ acc.map Prod.fst ∨ x = p.email := by
  induction acc with
  | nil =>
    simp only [insertGrouped, List.map_cons, List.map_nil, List.mem_singleton] at h
    exact Or.inr h
  | cons g rest ih =>
    obtain ⟨k, ps⟩ := g
    simp only [insertGrouped] at h
    by_cases hk : k = p.email
    · rw [if_pos hk] at h
      simp only [List.map_cons, List.mem_cons] at h ⊢
      tauto
    · rw [if_neg hk] at h
      simp only [List.map_cons, List.mem_cons] at h ⊢
      rcases h with h | h
      · exact Or.inl (Or.inl h)
      · rcases ih h with h2 | h2
        · exact Or.inl (Or.inr h2)
        · exact Or.inr h2

theorem nodup_keys_insertGrouped {acc : List (String × List NewsletterPreference)}
    {p : NewsletterPreference} (h : (acc.map Prod.fst).Nodup) :
    ((insertGrouped acc p).map Prod.fst).Nodup := by
  induction acc with
  | nil => simp [insertGrouped]
  | cons g rest ih =>
    obtain ⟨k, ps⟩ := g
    simp only [List.map_cons, List.nodup_cons] at h
    obtain ⟨hk, hrest⟩ := h
    simp only [insertGrouped]
    by_cases he : k = p.email
    · rw [if_pos he]
      simp only [List.map_cons, List.nodup_cons]
      exact ⟨hk, hrest⟩
    · rw [if_neg he]
      simp only [List.map_cons, List.nodup_cons]
      refine ⟨fun hmem => ?_, ih hrest⟩
      rcases mem_keys_insertGrouped hmem with h2 | h2
      · exact hk h2
      · exact he h2

theorem nodup_keys_foldl (l : List NewsletterPreference) :
    ∀ acc, (acc.map Prod.fst).Nodup →
      ((l.foldl insertGrouped acc).map Prod.fst).Nodup := by
  induction l with
  | nil => intro acc h; simpa using h
  | cons x xs ih =>
    intro acc h
    simp only [List.foldl_cons]
    exact ih _ (nodup_keys_insertGrouped h)

theorem nodup_keys_groupByEmail (l : List NewsletterPreference) :
    ((groupByEmail l).map Prod.fst).Nodup := by
  unfold groupByEmail
  exact nodup_keys_foldl l [] (by simp)

theorem findGroup_eq_of_mem {g : List (String × List NewsletterPreference)}
    (hnodup : (g.map Prod.fst).Nodup) {e : String} {ps : List NewsletterPreference}
    (hm : (e, ps) ∈ g) : findGroup g e = ps := by
  induction g with
  | nil => cases hm
  | cons x rest ih =>
    obtain ⟨k, qs⟩ := x
    simp only [List.map_cons, List.nodup_cons] at hnodup
    obtain ⟨hk, hrest⟩ := hnodup
    rcases List.mem_cons.mp hm with h | h
    · rw [Prod.mk.injEq] at h
      obtain ⟨rfl, rfl⟩ := h
      simp [findGroup]
    · have hke : k ≠ e := by
        intro hkeq
        subst hkeq
        exact hk (List.mem_map.mpr ⟨(k, ps), h, rfl⟩)
      simp only [findGroup]
      rw [if_neg hke]
      exact ih hrest h

/-- Every FollowingUser returned by `searchFollowings` is the projection of an
indexed document that matches the query and satisfies both equality filters. -/
theorem mem_searchFollowings {docs : List (String × FollowingDocument)}
    {qm : String → FollowingDocument → Bool} {p u q : String} {f : FollowingUser}
    (h : f ∈ searchFollowings docs qm p u q) :
    ∃ d, d ∈ docs.map Prod.snd ∧ qm q d = true ∧ d.platformName = p ∧
      d.parentUsername = u ∧ f = projectDoc d := by
  unfold searchFollowings at h
  obtain ⟨d, hd, rfl⟩ := List.mem_map.mp h
  have hd2 := List.take_subset _ _ hd
  obtain ⟨hmem, hcond⟩ := List.mem_filter.mp hd2
  simp only [Bool.and_eq_true, decide_eq_true_eq] at hcond
  exact ⟨d, hmem, hcond.1.1, hcond.1.2, hcond.2, rfl⟩

/-! ## C6: weekly schedule -/

/-- C6: for every timezone and instant (every ClockEnv), the evaluator on
frequency `weekly` with sendTime "09:00" is due exactly when the local hour is
9 and the local weekday is Monday (dayMap value 1); in particular any
non-Monday 09:00 local instant, such as a Tuesday, is not due. -/
theorem c6_weekly_due_iff (clock : ClockEnv) (tz : String) :
    shouldSendNewsletter clock ("weekly") ("09:00") tz = true ↔
      clock.localHour tz = 9 ∧ clock.localWeekday tz = 1 := by
  unfold shouldSendNewsletter
  rw [show jsNumber (sendTimeHourStr ("09:00")) = some 9 from by decide]
  by_cases hh : clock.localHour tz = 9
  · rw [hh]
    rw [if_neg (not_not_intro rfl), if_neg (by decide), if_pos rfl]
    simp
  · have hcond : some 9 ≠ some (clock.localHour tz) := by
      intro h
      exact hh (Option.some.inj h).symm
    rw [if_pos hcond]
    simp [hh]

/-! ## C7: monthly schedule and closed frequency set -/

/-- C7: (a) for every timezone, instant and sendTime, frequency `monthly` is
due only when the hour component of sendTime equals the local hour and the
local day-of-month is 1; (b) for any frequency outside daily/weekly/monthly
the evaluator is never due - there is no default-true fallback. -/
theorem c7_monthly_only_and_closed_set :
    (∀ (clock : ClockEnv) (tz sendTime : String),
      shouldSendNewsletter clock ("monthly") sendTime tz = true →
        jsNumber (sendTimeHourStr sendTime) = some (clock.localHour tz) ∧
          clock.localDayOfMonth tz = 1) ∧
    (∀ (clock : ClockEnv) (tz sendTime freq : String),
      freq ≠ "daily" → freq ≠ "weekly" → freq ≠ "monthly" →
        shouldSendNewsletter clock freq sendTime tz = false) := by
  constructor
  · intro clock tz sendTime h
    unfold shouldSendNewsletter at h
    by_cases hc : jsNumber (sendTimeHourStr sendTime) = some (clock.localHour tz)
    · rw [if_neg (not_not_intro hc), if_neg (by decide), if_neg (by decide), if_pos rfl] at h
      exact ⟨hc, of_decide_eq_true h⟩
    · rw [if_pos hc] at h
      exact absurd h (by decide)
  · intro clock tz sendTime freq h1 h2 h3
    unfold shouldSendNewsletter
    by_cases hc : jsNumber (sendTimeHourStr sendTime) ≠ some (clock.localHour tz)
    · rw [if_pos hc]
    · rw [if_neg hc, if_neg h1, if_neg h2, if_neg h3]

/-- Witness for C7 at a concrete instant (hour 9, day-of-month 1) and the
unsupported frequency "yearly". -/
theorem c7_witness :
    (jsNumber (sendTimeHourStr ("09:00")) = some (wClock.localHour ("UTC")) ∧
      wClock.localDayOfMonth ("UTC") = 1) ∧
    shouldSendNewsletter wClock ("yearly") ("09:00") ("UTC") = false :=
  ⟨c7_monthly_only_and_closed_set.1 wClock ("UTC") ("09:00") (by decide),
   c7_monthly_only_and_closed_set.2 wClock ("UTC") ("09:00") ("yearly")
     (by decide) (by decide) (by decide)⟩

/-! ## C3: skipped preferences and the analytics sink -/

/-- C3 counterexample: a run whose single enabled preference is rejected by
the schedule evaluator (send time 08:00, local hour 10) returns early with
"No newsletters scheduled for this time" and hands nothing to
`trackBatchEmailAnalytics` - the rejected preference is never recorded as a
`skipped` outcome, contradicting the claim for runs in which every preference
is rejected. -/
theorem c3_counterexample :
    isDue wSendEnvOff.clock wPrefB = false ∧
    sendEmailsHandler wSendEnvOff [wPrefB] =
      { response := .noneScheduled, statusCode := 200, recordedAnalytics := [] } := by
  exact ⟨by decide, by decide⟩

/-- C3 (amended): in every batch run in which at least one enabled preference
is due, each enabled preference rejected by the schedule evaluator is recorded
via the analytics sink as a `skipped` outcome with followings count 0 and
contents count 0; runs in which every preference is rejected return early and
record nothing. -/
theorem c3_amended_skipped_recorded (env : SendEnv) (prefs : List NewsletterPreference)
    (hdue : ∃ q ∈ prefs, isDue env.clock q = true)
    (p : NewsletterPreference) (hp : p ∈ prefs) (hnot : isDue env.clock p = false) :
    mkSkippedRecord p ∈ (sendEmailsHandler env prefs).recordedAnalytics ∧
    (mkSkippedRecord p).status = "skipped" ∧
    (mkSkippedRecord p).followings_count = 0 ∧
    (mkSkippedRecord p).total_contents_count = some 0 := by
  obtain ⟨q, hq, hqdue⟩ := hdue
  have hprefsNe : prefs ≠ [] := List.ne_nil_of_mem hp
  have hlen : ¬(prefs.length = 0) := by
    simpa [List.length_eq_zero] using hprefsNe
  have htosendNe : preferencesToSend env.clock prefs ≠ [] :=
    List.ne_nil_of_mem (List.mem_filter.mpr ⟨hq, hqdue⟩)
  have hlen2 : ¬((preferencesToSend env.clock prefs).length = 0) := by
    simpa [List.length_eq_zero] using htosendNe
  have hgroupsNe : groupByEmail (preferencesToSend env.clock prefs) ≠ [] :=
    groupByEmail_ne_nil htosendNe
  have hlen3 : ¬((buildEmailData env prefs).length = 0) := by
    simpa [buildEmailData, List.length_eq_zero, List.map_eq_nil_iff] using hgroupsNe
  have hposRec : 0 < (analyticsData env prefs).length := by
    have h1 : (sendAttempts env prefs).length = (buildEmailData env prefs).length := by
      simp [sendAttempts]
    simp only [analyticsData, List.length_append, List.length_map, h1]
    omega
  have hmem : mkSkippedRecord p ∈ analyticsData env prefs := by
    apply List.mem_append_left
    exact List.mem_map.mpr ⟨p, List.mem_filter.mpr ⟨hp, by simp [hnot]⟩, rfl⟩
  refine ⟨?_, rfl, rfl, rfl⟩
  unfold sendEmailsHandler
  rw [if_neg hlen, if_neg hlen2, if_neg hlen3]
  dsimp only
  rw [if_pos hposRec]
  exact hmem

/-- Witness for the amended C3: a run with one due and one rejected
preference records the rejected one as a zero-count `skipped` outcome. -/
theorem c3_amended_witness :
    mkSkippedRecord wPrefB ∈ (sendEmailsHandler wSendEnv [wPrefA, wPrefB]).recordedAnalytics ∧
    (mkSkippedRecord wPrefB).status = "skipped" ∧
    (mkSkippedRecord wPrefB).followings_count = 0 ∧
    (mkSkippedRecord wPrefB).total_contents_count = some 0 :=
  c3_amended_skipped_recorded wSendEnv [wPrefA, wPrefB]
    ⟨wPrefA, by decide, by decide⟩ wPrefB (by decide) (by decide)

/-! ## C4: batch accounting -/

theorem filterEqNilOfAll {α : Type} {p : α → Bool} {l : List α}
    (h : ∀ x ∈ l, p x = false) : l.filter p = [] := by
  induction l with
  | nil => rfl
  | cons x xs ih =>
    rw [List.filter_cons, h x (List.mem_cons_self x xs)]
    exact ih (fun y hy => h y (List.mem_cons_of_mem x hy))

theorem filterEqSelfOfAll {α : Type} {p : α → Bool} {l : List α}
    (h : ∀ x ∈ l, p x = true) : l.filter p = l := by
  induction l with
  | nil => rfl
  | cons x xs ih =>
    rw [List.filter_cons, h x (List.mem_cons_self x xs), if_pos rfl,
      ih (fun y hy => h y (List.mem_cons_of_mem x hy))]

/-- A recipient's send result is successful exactly when rendering finds no
raw response object and the SES send succeeds. -/
theorem runSendSuccessEq (env : SendEnv) (groups : List (String × List NewsletterPreference))
    (e : String) (fs : List FollowingContent) :
    (runSendForRecipient env groups e fs).success =
      (!hasObjContents fs &&
        (match env.sesSend e with | .ok _ => true | .error _ => false)) := by
  unfold runSendForRecipient renderNewsletterEmail
  cases hobj : hasObjContents fs
  · cases hses : env.sesSend e <;> simp [hses]
  · simp

/-- Every sent-or-failed analytics record carries status "sent" or "failed". -/
theorem runSendStatus (env : SendEnv) (groups : List (String × List NewsletterPreference))
    (e : String) (fs : List FollowingContent) :
    (runSendForRecipient env groups e fs).record.status = "sent" ∨
    (runSendForRecipient env groups e fs).record.status = "failed" := by
  unfold runSendForRecipient renderNewsletterEmail
  cases hobj : hasObjContents fs
  · cases hses : env.sesSend e <;> simp [hses]
  · simp

/-- The success of one grouped recipient's send, phrased through
`recipientSendFails`. -/
theorem runSendSuccessNotFails (env : SendEnv)
    (groups : List (String × List NewsletterPreference))
    (g : String × List NewsletterPreference) :
    (runSendForRecipient env groups g.1 (g.2.map (fetchPairContents env))).success =
      !(recipientSendFails env g.1 g.2) := by
  rw [runSendSuccessEq]
  unfold recipientSendFails
  cases hses : env.sesSend g.1 <;>
    cases hobj : hasObjContents (g.2.map (fetchPairContents env)) <;>
      simp [hses, hobj]

/-- The send attempts of a run, one per grouped recipient in group order. -/
theorem sendAttemptsEq (env : SendEnv) (prefs : List NewsletterPreference) :
    sendAttempts env prefs =
      (groupByEmail (preferencesToSend env.clock prefs)).map
        (fun g => runSendForRecipient env (groupByEmail (preferencesToSend env.clock prefs))
          g.1 (g.2.map (fetchPairContents env))) := by
  unfold sendAttempts buildEmailData
  rw [List.map_map]
  rfl

/-- C4: in every batch run with at least one due preference, over the N
grouped due recipients of which exactly K fail to send, the summary reports
successCount = N - K and failureCount = K, exactly N sent-or-failed analytics
outcomes are recorded, and the status is 207 when K > 0 and 200 when K = 0. -/
theorem c4_batch_accounting (env : SendEnv) (prefs : List NewsletterPreference)
    (h2 : ¬((preferencesToSend env.clock prefs).length = 0)) :
    (sendEmailsHandler env prefs).response =
      .summary
        ((groupByEmail (preferencesToSend env.clock prefs)).length -
          ((groupByEmail (preferencesToSend env.clock prefs)).filter
            (fun g => recipientSendFails env g.1 g.2)).length)
        (((groupByEmail (preferencesToSend env.clock prefs)).filter
            (fun g => recipientSendFails env g.1 g.2)).length)
        (sendErrors env prefs) ∧
    ((sendEmailsHandler env prefs).recordedAnalytics.filter
        (fun a => a.status == "sent" || a.status == "failed")).length =
      (groupByEmail (preferencesToSend env.clock prefs)).length ∧
    (sendEmailsHandler env prefs).statusCode =
      (if 0 < ((groupByEmail (preferencesToSend env.clock prefs)).filter
          (fun g => recipientSendFails env g.1 g.2)).length then 207 else 200) := by
  have hlen : ¬(prefs.length = 0) := by
    intro hl
    rw [List.length_eq_zero] at hl
    subst hl
    exact h2 rfl
  have htosendNe : preferencesToSend env.clock prefs ≠ [] := by
    intro hnil
    exact h2 (by rw [hnil]; rfl)
  have hgroupsNe : groupByEmail (preferencesToSend env.clock prefs) ≠ [] :=
    groupByEmail_ne_nil htosendNe
  have hlen3 : ¬((buildEmailData env prefs).length = 0) := by
    simpa [buildEmailData, List.length_eq_zero, List.map_eq_nil_iff] using hgroupsNe
  have hsuccLen :
      ((sendAttempts env prefs).filter (fun a => a.success)).length =
        (groupByEmail (preferencesToSend env.clock prefs)).length -
          ((groupByEmail (preferencesToSend env.clock prefs)).filter
            (fun g => recipientSendFails env g.1 g.2)).length := by
    rw [sendAttemptsEq, lengthFilterMap]
    have hcongr := filterCongrOn
      (l := groupByEmail (preferencesToSend env.clock prefs))
      (p := fun g => (runSendForRecipient env
        (groupByEmail (preferencesToSend env.clock prefs)) g.1
        (g.2.map (fetchPairContents env))).success)
      (q := fun g => !(recipientSendFails env g.1 g.2))
      (fun g _ => runSendSuccessNotFails env _ g)
    rw [hcongr]
    have hadd := lengthFilterNotAdd (fun g => recipientSendFails env g.1 g.2)
      (groupByEmail (preferencesToSend env.clock prefs))
    omega
  have hfailLen :
      (sendErrors env prefs).length =
        ((groupByEmail (preferencesToSend env.clock prefs)).filter
          (fun g => recipientSendFails env g.1 g.2)).length := by
    unfold sendErrors
    rw [List.length_map, sendAttemptsEq, lengthFilterMap]
    have hcongr := filterCongrOn
      (l := groupByEmail (preferencesToSend env.clock prefs))
      (p := fun g => !(runSendForRecipient env
        (groupByEmail (preferencesToSend env.clock prefs)) g.1
        (g.2.map (fetchPairContents env))).success)
      (q := fun g => recipientSendFails env g.1 g.2)
      (fun g _ => by
        show (!(runSendForRecipient env (groupByEmail (preferencesToSend env.clock prefs))
          g.1 (g.2.map (fetchPairContents env))).success) = recipientSendFails env g.1 g.2
        rw [runSendSuccessNotFails env
          (groupByEmail (preferencesToSend env.clock prefs)) g, Bool.not_not])
    rw [hcongr]
  have hAttLen : (sendAttempts env prefs).length = (buildEmailData env prefs).length := by
    simp [sendAttempts]
  have hposRec : 0 < (analyticsData env prefs).length := by
    simp only [analyticsData, List.length_append, List.length_map, hAttLen]
    omega
  have hrecFilter :
      ((analyticsData env prefs).filter
          (fun a => a.status == "sent" || a.status == "failed")).length =
        (groupByEmail (preferencesToSend env.clock prefs)).length := by
    unfold analyticsData
    rw [List.filter_append]
    have hskip : (skippedRecords env.clock prefs).filter
        (fun a => a.status == "sent" || a.status == "failed") = [] := by
      apply filterEqNilOfAll
      intro r hr
      obtain ⟨p, _, rfl⟩ := List.mem_map.mp hr
      rfl
    have hrec : ((sendAttempts env prefs).map SendAttempt.record).filter
        (fun a => a.status == "sent" || a.status == "failed") =
        (sendAttempts env prefs).map SendAttempt.record := by
      apply filterEqSelfOfAll
      intro r hr
      obtain ⟨a, ha, rfl⟩ := List.mem_map.mp hr
      rw [sendAttemptsEq] at ha
      obtain ⟨g, _, rfl⟩ := List.mem_map.mp ha
      rcases runSendStatus env (groupByEmail (preferencesToSend env.clock prefs))
        g.1 (g.2.map (fetchPairContents env)) with hs | hs <;> rw [hs] <;> rfl
    rw [hskip, hrec, List.nil_append, List.length_map, sendAttemptsEq, List.length_map]
  refine ⟨?_, ?_, ?_⟩
  · unfold sendEmailsHandler
    rw [if_neg hlen, if_neg h2, if_neg hlen3]
    dsimp only
    rw [hsuccLen, hfailLen]
  · unfold sendEmailsHandler
    rw [if_neg hlen, if_neg h2, if_neg hlen3]
    dsimp only
    rw [if_pos hposRec]
    exact hrecFilter
  · unfold sendEmailsHandler
    rw [if_neg hlen, if_neg h2, if_neg hlen3]
    dsimp only
    rw [hfailLen]

/-- Witness for C4: two due recipients, the SES send failing for exactly one
of them - successCount 1 = 2-1, failureCount 1, two sent-or-failed outcomes,
status 207. -/
theorem c4_witness :
    (sendEmailsHandler wSendEnvSesFail [wPrefA, wPrefC]).response =
      .summary
        ((groupByEmail (preferencesToSend wSendEnvSesFail.clock [wPrefA, wPrefC])).length -
          ((groupByEmail (preferencesToSend wSendEnvSesFail.clock [wPrefA, wPrefC])).filter
            (fun g => recipientSendFails wSendEnvSesFail g.1 g.2)).length)
        (((groupByEmail (preferencesToSend wSendEnvSesFail.clock [wPrefA, wPrefC])).filter
            (fun g => recipientSendFails wSendEnvSesFail g.1 g.2)).length)
        (sendErrors wSendEnvSesFail [wPrefA, wPrefC]) ∧
    ((sendEmailsHandler wSendEnvSesFail [wPrefA, wPrefC]).recordedAnalytics.filter
        (fun a => a.status == "sent" || a.status == "failed")).length =
      (groupByEmail (preferencesToSend wSendEnvSesFail.clock [wPrefA, wPrefC])).length ∧
    (sendEmailsHandler wSendEnvSesFail [wPrefA, wPrefC]).statusCode =
      (if 0 < ((groupByEmail (preferencesToSend wSendEnvSesFail.clock [wPrefA, wPrefC])).filter
          (fun g => recipientSendFails wSendEnvSesFail g.1 g.2)).length then 207 else 200) :=
  c4_batch_accounting wSendEnvSesFail [wPrefA, wPrefC] (by decide)

/-! ## C5: per-pair failure isolation and empty digests -/

/-- In every run that reaches the fan-out, the analytics batch handed to the
sink is exactly `analyticsData`. -/
theorem recordedAnalyticsEq (env : SendEnv) (prefs : List NewsletterPreference)
    (h2 : ¬((preferencesToSend env.clock prefs).length = 0)) :
    (sendEmailsHandler env prefs).recordedAnalytics = analyticsData env prefs := by
  have hlen : ¬(prefs.length = 0) := by
    intro hl
    rw [List.length_eq_zero] at hl
    subst hl
    exact h2 rfl
  have htosendNe : preferencesToSend env.clock prefs ≠ [] := by
    intro hnil
    exact h2 (by rw [hnil]; rfl)
  have hgroupsNe : groupByEmail (preferencesToSend env.clock prefs) ≠ [] :=
    groupByEmail_ne_nil htosendNe
  have hlen3 : ¬((buildEmailData env prefs).length = 0) := by
    simpa [buildEmailData, List.length_eq_zero, List.map_eq_nil_iff] using hgroupsNe
  have hAttLen : (sendAttempts env prefs).length = (buildEmailData env prefs).length := by
    simp [sendAttempts]
  have hposRec : 0 < (analyticsData env prefs).length := by
    simp only [analyticsData, List.length_append, List.length_map, hAttLen]
    omega
  unfold sendEmailsHandler
  rw [if_neg hlen, if_neg h2, if_neg hlen3]
  dsimp only
  rw [if_pos hposRec]

/-- The analytics record of a send attempt always names the recipient. -/
theorem runSendRecordEmail (env : SendEnv) (groups : List (String × List NewsletterPreference))
    (e : String) (fs : List FollowingContent) :
    (runSendForRecipient env groups e fs).record.email = e := by
  unfold runSendForRecipient renderNewsletterEmail
  cases hobj : hasObjContents fs
  · cases hses : env.sesSend e <;> simp [hses]
  · simp

/-- When no pair carries the raw response object and SES succeeds, the
attempt's analytics record has status "sent". -/
theorem runSendSentStatus (env : SendEnv) (groups : List (String × List NewsletterPreference))
    (e : String) (fs : List FollowingContent) (hobj : hasObjContents fs = false)
    (hses : env.sesSend e = .ok ()) :
    (runSendForRecipient env groups e fs).record.status = "sent" := by
  unfold runSendForRecipient renderNewsletterEmail
  simp [hobj, hses]

/-- The analytics record of an attempt whose rendering threw the TypeError
(some pair carries the raw response object): status "failed" with the
TypeError message, regardless of whether SES would have accepted. -/
theorem runSendFailedStatus (env : SendEnv) (groups : List (String × List NewsletterPreference))
    (e : String) (fs : List FollowingContent) (hobj : hasObjContents fs = true) :
    (runSendForRecipient env groups e fs).record.status = "failed" ∧
    (runSendForRecipient env groups e fs).record.error_message =
      some ("following.contents.map is not a function") := by
  unfold runSendForRecipient renderNewsletterEmail
  simp [hobj]

/-- C5 counterexample: a recipient whose single content retrieval succeeds
with zero items has empty aggregate content and an accepting SES, yet is not
sent a digest - the digest entry carries the raw `{ contents, fetchedAt }`
response object, rendering throws `following.contents.map is not a function`,
and the run records a `failed` outcome (summary 0 sent / 1 failed), refuting
"a recipient whose aggregate content is empty is still sent a digest". -/
theorem c5_counterexample :
    wSendEnvEmptyOk.getContents wPrefA.platform wPrefA.username =
      .ok { contents := [], fetchedAt := "t0" } ∧
    wSendEnvEmptyOk.sesSend ("a@x.io") = .ok () ∧
    (sendEmailsHandler wSendEnvEmptyOk [wPrefA]).response =
      .summary 0 1 [("a@x.io", "following.contents.map is not a function")] ∧
    (sendEmailsHandler wSendEnvEmptyOk [wPrefA]).recordedAnalytics =
      [{ email := "a@x.io", user_id := some ("u1"), status := "failed",
         error_message := some ("following.contents.map is not a function"),
         followings_count := 1, total_contents_count := none,
         platforms := ["medium"], frequency := "daily", timezone := "UTC",
         send_time := "09:00" }] := by
  refine ⟨rfl, rfl, by decide, by decide⟩

/-- C5 (amended): for every grouped recipient, (a) the digest data contains
one entry per (platform, username) pair of the group - no pair is dropped;
(b) a pair whose content retrieval throws contributes exactly an empty
content list, while (c) a succeeding pair contributes its raw retrieved
response object; (d) no recipient is ever skipped - exactly one
sent-or-failed outcome naming the recipient reaches the analytics batch;
(e) a recipient all of whose retrievals failed (empty aggregate content) is
still sent a digest - its outcome is `sent` when SES accepts; but (f) as soon
as any pair's retrieval succeeds - with any number of items, including zero,
so in particular with empty aggregate content - rendering throws a TypeError
on the non-array `contents` object and the recipient's outcome is `failed`
with that message: no digest is delivered. -/
theorem c5_amended_failure_isolated (env : SendEnv) (prefs : List NewsletterPreference)
    (e : String) (ps : List NewsletterPreference)
    (hg : (e, ps) ∈ groupByEmail (preferencesToSend env.clock prefs)) :
    (e, ps.map (fetchPairContents env)) ∈ buildEmailData env prefs ∧
    (∀ p ∈ ps, ∀ msg, env.getContents p.platform p.username = .error msg →
      fetchPairContents env p =
        { username := p.username, platform := p.platform, contents := .arr [] }) ∧
    (∀ p ∈ ps, ∀ resp, env.getContents p.platform p.username = .ok resp →
      fetchPairContents env p =
        { username := p.username, platform := p.platform, contents := .obj resp }) ∧
    ((runSendForRecipient env (groupByEmail (preferencesToSend env.clock prefs)) e
        (ps.map (fetchPairContents env))).record ∈
          (sendEmailsHandler env prefs).recordedAnalytics ∧
      (runSendForRecipient env (groupByEmail (preferencesToSend env.clock prefs)) e
        (ps.map (fetchPairContents env))).record.email = e ∧
      ((runSendForRecipient env (groupByEmail (preferencesToSend env.clock prefs)) e
          (ps.map (fetchPairContents env))).record.status = "sent" ∨
        (runSendForRecipient env (groupByEmail (preferencesToSend env.clock prefs)) e
          (ps.map (fetchPairContents env))).record.status = "failed")) ∧
    ((∀ p ∈ ps, ∃ msg, env.getContents p.platform p.username = .error msg) →
      env.sesSend e = .ok () →
      (runSendForRecipient env (groupByEmail (preferencesToSend env.clock prefs)) e
        (ps.map (fetchPairContents env))).record.status = "sent") ∧
    (∀ p ∈ ps, ∀ resp, env.getContents p.platform p.username = .ok resp →
      (runSendForRecipient env (groupByEmail (preferencesToSend env.clock prefs)) e
          (ps.map (fetchPairContents env))).record.status = "failed" ∧
        (runSendForRecipient env (groupByEmail (preferencesToSend env.clock prefs)) e
          (ps.map (fetchPairContents env))).record.error_message =
          some ("following.contents.map is not a function")) := by
  have htosendNe : preferencesToSend env.clock prefs ≠ [] := by
    intro hnil
    rw [hnil] at hg
    exact List.not_mem_nil _ hg
  have h2 : ¬((preferencesToSend env.clock prefs).length = 0) := by
    simpa [List.length_eq_zero] using htosendNe
  have hmemAttempt :
      runSendForRecipient env (groupByEmail (preferencesToSend env.clock prefs)) e
          (ps.map (fetchPairContents env)) ∈ sendAttempts env prefs := by
    rw [sendAttemptsEq]
    exact List.mem_map.mpr ⟨(e, ps), hg, rfl⟩
  refine ⟨List.mem_map.mpr ⟨(e, ps), hg, rfl⟩, ?_, ?_, ⟨?_, ?_, ?_⟩, ?_, ?_⟩
  · intro p _ msg hmsg
    unfold fetchPairContents
    rw [hmsg]
  · intro p _ resp hresp
    unfold fetchPairContents
    rw [hresp]
  · rw [recordedAnalyticsEq env prefs h2]
    unfold analyticsData
    exact List.mem_append_right _ (List.mem_map.mpr ⟨_, hmemAttempt, rfl⟩)
  · exact runSendRecordEmail env _ e _
  · exact runSendStatus env _ e _
  · intro hall hses
    have hobjFalse : hasObjContents (ps.map (fetchPairContents env)) = false := by
      rw [Bool.eq_false_iff]
      intro hobj
      unfold hasObjContents at hobj
      rw [List.any_eq_true] at hobj
      obtain ⟨f, hf, hpf⟩ := hobj
      obtain ⟨p, hp, rfl⟩ := List.mem_map.mp hf
      obtain ⟨msg, hmsg⟩ := hall p hp
      unfold fetchPairContents at hpf
      rw [hmsg] at hpf
      simp at hpf
    exact runSendSentStatus env _ e _ hobjFalse hses
  · intro p hp resp hresp
    have hobjTrue : hasObjContents (ps.map (fetchPairContents env)) = true := by
      unfold hasObjContents
      rw [List.any_eq_true]
      refine ⟨fetchPairContents env p, List.mem_map.mpr ⟨p, hp, rfl⟩, ?_⟩
      unfold fetchPairContents
      rw [hresp]
    exact runSendFailedStatus env _ e _ hobjTrue

/-- Witness for the amended C5: in one run the recipient whose single
retrieval fails is included in the digest data with an empty array and gets a
`sent` outcome; in a second run the recipient whose single retrieval succeeds
with zero items gets a `failed` outcome. -/
theorem c5_amended_witness :
    ("a@x.io", [wPrefA].map (fetchPairContents wSendEnv)) ∈
        buildEmailData wSendEnv [wPrefA, wPrefB] ∧
    fetchPairContents wSendEnv wPrefA =
      { username := wPrefA.username, platform := wPrefA.platform, contents := .arr [] } ∧
    (runSendForRecipient wSendEnv
        (groupByEmail (preferencesToSend wSendEnv.clock [wPrefA, wPrefB])) "a@x.io"
        ([wPrefA].map (fetchPairContents wSendEnv))).record.status = "sent" ∧
    (runSendForRecipient wSendEnvEmptyOk
        (groupByEmail (preferencesToSend wSendEnvEmptyOk.clock [wPrefA])) "a@x.io"
        ([wPrefA].map (fetchPairContents wSendEnvEmptyOk))).record.status = "failed" := by
  have h1 := c5_amended_failure_isolated wSendEnv [wPrefA, wPrefB] "a@x.io" [wPrefA]
    (by decide)
  have h2 := c5_amended_failure_isolated wSendEnvEmptyOk [wPrefA] "a@x.io" [wPrefA]
    (by decide)
  exact ⟨h1.1,
    h1.2.1 wPrefA (by decide) "failed to get contents" rfl,
    h1.2.2.2.2.1 (fun p _ => ⟨"failed to get contents", rfl⟩) rfl,
    (h2.2.2.2.2.2 wPrefA (by decide) { contents := [], fetchedAt := "t0" } rfl).1⟩

/-! ## C10: analytics fields come from the group's first preference -/

theorem mapCongrOn {α β : Type} {f g : α → β} {l : List α}
    (h : ∀ x ∈ l, f x = g x) : l.map f = l.map g := by
  induction l with
  | nil => rfl
  | cons x xs ih =>
    rw [List.map_cons, List.map_cons, h x (List.mem_cons_self x xs),
      ih (fun y hy => h y (List.mem_cons_of_mem x hy))]

/-- A retrieval entry always carries its preference's platform, whether the
retrieval succeeded or failed. -/
theorem fetchPairPlatform (env : SendEnv) (p : NewsletterPreference) :
    (fetchPairContents env p).platform = p.platform := by
  unfold fetchPairContents
  cases h : env.getContents p.platform p.username <;> rfl

/-- The frequency/timezone/send_time/platforms fields of a send attempt's
analytics record, resolved through the second `groupedByUser.get(email)`
lookup: the `||`-defaulted fields of the group's first preference and the
first-occurrence dedup of the entries' platforms. -/
theorem runSendRecordFields (env : SendEnv)
    (groups : List (String × List NewsletterPreference)) (e : String)
    (fs : List FollowingContent) (ps : List NewsletterPreference)
    (p0 : NewsletterPreference) (hfind : findGroup groups e = ps)
    (hhead : ps.head? = some p0) :
    (runSendForRecipient env groups e fs).record.frequency = jsOr p0.frequency ("daily") ∧
    (runSendForRecipient env groups e fs).record.timezone = jsOr p0.timezone ("UTC") ∧
    (runSendForRecipient env groups e fs).record.send_time = jsOr p0.send_time ("00:00") ∧
    (runSendForRecipient env groups e fs).record.platforms =
      dedupStrings (fs.map (fun f => f.platform)) := by
  unfold runSendForRecipient renderNewsletterEmail
  cases hobj : hasObjContents fs
  · cases hses : env.sesSend e <;> simp [hfind, hhead, hses]
  · simp [hfind, hhead]

/-- C10: for a recipient grouped from two or more due preferences, the single
sent-or-failed outcome takes its frequency, timezone and send_time solely from
the first preference of the recipient's group (the other preferences'
scheduling fields are ignored), while its platforms list is the deduplicated
union of the platforms of all the recipient's retrieved pairs; and that one
record is what the run hands to the analytics sink. -/
theorem c10_first_pref_fields (env : SendEnv) (prefs : List NewsletterPreference)
    (e : String) (ps : List NewsletterPreference)
    (hg : (e, ps) ∈ groupByEmail (preferencesToSend env.clock prefs))
    (p0 : NewsletterPreference) (hp0 : ps.head? = some p0) (_hlen : 2 ≤ ps.length)
    (hfreq : p0.frequency ≠ "") (htz : p0.timezone ≠ "") (hst : p0.send_time ≠ "") :
    (runSendForRecipient env (groupByEmail (preferencesToSend env.clock prefs)) e
        (ps.map (fetchPairContents env))).record.frequency = p0.frequency ∧
    (runSendForRecipient env (groupByEmail (preferencesToSend env.clock prefs)) e
        (ps.map (fetchPairContents env))).record.timezone = p0.timezone ∧
    (runSendForRecipient env (groupByEmail (preferencesToSend env.clock prefs)) e
        (ps.map (fetchPairContents env))).record.send_time = p0.send_time ∧
    (runSendForRecipient env (groupByEmail (preferencesToSend env.clock prefs)) e
        (ps.map (fetchPairContents env))).record.platforms =
      dedupStrings (ps.map (fun p => p.platform)) ∧
    ((runSendForRecipient env (groupByEmail (preferencesToSend env.clock prefs)) e
        (ps.map (fetchPairContents env))).record.status = "sent" ∨
      (runSendForRecipient env (groupByEmail (preferencesToSend env.clock prefs)) e
        (ps.map (fetchPairContents env))).record.status = "failed") ∧
    (runSendForRecipient env (groupByEmail (preferencesToSend env.clock prefs)) e
        (ps.map (fetchPairContents env))).record ∈
      (sendEmailsHandler env prefs).recordedAnalytics := by
  have hfind : findGroup (groupByEmail (preferencesToSend env.clock prefs)) e = ps :=
    findGroup_eq_of_mem (nodup_keys_groupByEmail _) hg
  obtain ⟨hf, ht, hs, hplat⟩ := runSendRecordFields env
    (groupByEmail (preferencesToSend env.clock prefs)) e
    (ps.map (fetchPairContents env)) ps p0 hfind hp0
  have htosendNe : preferencesToSend env.clock prefs ≠ [] := by
    intro hnil
    rw [hnil] at hg
    exact List.not_mem_nil _ hg
  have h2 : ¬((preferencesToSend env.clock prefs).length = 0) := by
    simpa [List.length_eq_zero] using htosendNe
  have hmemAttempt :
      runSendForRecipient env (groupByEmail (preferencesToSend env.clock prefs)) e
          (ps.map (fetchPairContents env)) ∈ sendAttempts env prefs := by
    rw [sendAttemptsEq]
    exact List.mem_map.mpr ⟨(e, ps), hg, rfl⟩
  refine ⟨?_, ?_, ?_, ?_, ?_, ?_⟩
  · rw [hf]
    unfold jsOr
    rw [if_neg hfreq]
  · rw [ht]
    unfold jsOr
    rw [if_neg htz]
  · rw [hs]
    unfold jsOr
    rw [if_neg hst]
  · rw [hplat, List.map_map]
    exact congrArg dedupStrings (mapCongrOn (fun p _ => fetchPairPlatform env p))
  · exact runSendStatus env _ e _
  · rw [recordedAnalyticsEq env prefs h2]
    unfold analyticsData
    exact List.mem_append_right _ (List.mem_map.mpr ⟨_, hmemAttempt, rfl⟩)

/-- Witness for C10: one recipient grouped from two due preferences on
different platforms with different scheduling fields. -/
theorem c10_witness :
    (runSendForRecipient wSendEnv
        (groupByEmail (preferencesToSend wSendEnv.clock [wPrefA, wPrefA2])) "a@x.io"
        ([wPrefA, wPrefA2].map (fetchPairContents wSendEnv))).record.frequency =
      wPrefA.frequency ∧
    (runSendForRecipient wSendEnv
        (groupByEmail (preferencesToSend wSendEnv.clock [wPrefA, wPrefA2])) "a@x.io"
        ([wPrefA, wPrefA2].map (fetchPairContents wSendEnv))).record.timezone =
      wPrefA.timezone ∧
    (runSendForRecipient wSendEnv
        (groupByEmail (preferencesToSend wSendEnv.clock [wPrefA, wPrefA2])) "a@x.io"
        ([wPrefA, wPrefA2].map (fetchPairContents wSendEnv))).record.send_time =
      wPrefA.send_time ∧
    (runSendForRecipient wSendEnv
        (groupByEmail (preferencesToSend wSendEnv.clock [wPrefA, wPrefA2])) "a@x.io"
        ([wPrefA, wPrefA2].map (fetchPairContents wSendEnv))).record.platforms =
      dedupStrings ([wPrefA, wPrefA2].map (fun p => p.platform)) := by
  have h := c10_first_pref_fields wSendEnv [wPrefA, wPrefA2] "a@x.io" [wPrefA, wPrefA2]
    (by decide) wPrefA rfl (by decide) (by decide) (by decide) (by decide)
  exact ⟨h.1, h.2.1, h.2.2.1, h.2.2.2.1⟩

/-! ## C1: cache hits and upstream capability invocations -/

/-- C1 counterexample: with a warm cache for MEDIUM/alice and no search
query, the fetch-followings handler does return exactly the cached value and
fetchedAt, but its invocation trace is not empty - the `userExists`
capability of the platform fetcher is invoked (before the cache is even
consulted), contradicting the claim that a cache hit completes without
invoking any upstream PlatformFetcher capability. -/
theorem c1_counterexample :
    (fetchFollowingsHandler wFEnvHit ⟨some ("MEDIUM"), some ("alice"), none⟩).statusCode = 200 ∧
    (fetchFollowingsHandler wFEnvHit ⟨some ("MEDIUM"), some ("alice"), none⟩).body =
      .followingsOk wCachedDTO.followings wCachedDTO.fetchedAt ∧
    (fetchFollowingsHandler wFEnvHit ⟨some ("MEDIUM"), some ("alice"), none⟩).calls =
      [.userExists ("MEDIUM") ("alice")] := by
  refine ⟨by decide, by decide, by decide⟩

/-- C1 (amended): on a cache hit the read operations return exactly the
cached value and fetchedAt that the cache holds for the key; the
fetch-contents handler invokes no PlatformFetcher capability at all, and the
fetch-followings handler never invokes the listing call but does invoke
`userExists` on every request, cache hit included. -/
theorem c1_amended_cache_hit :
    (∀ (env : FollowingsEnv) (p u : String) (cached : CachedFollowingsDTO),
      validPlatform p = true → env.isUserExists p u = true →
      env.cache (followingsKey p u) = some cached →
      fetchFollowingsHandler env ⟨some p, some u, none⟩ =
        { statusCode := 200, body := .followingsOk cached.followings cached.fetchedAt,
          calls := [.userExists p u], cacheWrites := [], finalIndex := env.indexDocs }) ∧
    (∀ (env : ContentsEnv) (p u : String) (since : Option String) (entry : ContentsPayload),
      validPlatform p = true →
      env.cache (contentsKey p u (effSince since)) = some entry →
      fetchContentsHandler env ⟨some p, some u, since⟩ =
        { result := .response 200 (.contentsOk entry.contents entry.fetchedAt),
          calls := [], cacheWrites := [] }) := by
  constructor
  · intro env p u cached hvp hex hcache
    unfold fetchFollowingsHandler
    dsimp only
    rw [hvp, if_pos rfl, hex, if_neg (by simp), hcache]
    rfl
  · intro env p u since entry hvp hcache
    unfold fetchContentsHandler
    dsimp only
    rw [hvp, if_pos rfl, hcache]

/-- Witness for the amended C1 at concrete warm-cache environments. -/
theorem c1_amended_witness :
    fetchFollowingsHandler wFEnvHit ⟨some ("MEDIUM"), some ("alice"), none⟩ =
      { statusCode := 200,
        body := .followingsOk wCachedDTO.followings wCachedDTO.fetchedAt,
        calls := [.userExists ("MEDIUM") ("alice")], cacheWrites := [],
        finalIndex := wFEnvHit.indexDocs } ∧
    fetchContentsHandler wCEnvHit ⟨some ("MEDIUM"), some ("alice"), none⟩ =
      { result := .response 200 (.contentsOk ([] : List ContentItem) "t0"),
        calls := [], cacheWrites := [] } :=
  ⟨c1_amended_cache_hit.1 wFEnvHit ("MEDIUM") ("alice") wCachedDTO (by decide) (by decide)
    (by decide),
   c1_amended_cache_hit.2 wCEnvHit ("MEDIUM") ("alice") none ⟨[], "t0"⟩ (by decide) (by decide)⟩

/-! ## C2: cache/index write failures on the read path -/

/-- C2 counterexample: a cache miss whose upstream fetch succeeds but whose
`redis.set` throws does not return the freshly fetched value with status 200:
the fetch-followings handler's catch converts it into a 500 internal_error
response, contradicting the claimed write-behind semantics. -/
theorem c2_counterexample :
    wFEnvRedisFail.getFollowings ("MEDIUM") ("alice") = .ok [wBob] ∧
    wFEnvRedisFail.cache (followingsKey ("MEDIUM") ("alice")) = none ∧
    fetchFollowingsHandler wFEnvRedisFail ⟨some ("MEDIUM"), some ("alice"), none⟩ =
      { statusCode := 500, body := .internalError ("redis: connection refused"),
        calls := [.userExists ("MEDIUM") ("alice"), .listFollowings ("MEDIUM") ("alice")],
        cacheWrites := [], finalIndex := [] } := by
  refine ⟨rfl, rfl, by decide⟩

/-- C2 (amended): on a cache miss with a successful upstream fetch, a failing
CacheStore write or SearchIndex upsert is not swallowed and the fresh value is
not returned: the fetch-followings handler answers 500 internal_error with the
write error's message, and the fetch-contents handler (which has no try/catch)
escapes with the unhandled error instead of producing a response. -/
theorem c2_amended_write_failure :
    (∀ (env : FollowingsEnv) (p u : String) (fl : List FollowingUser) (msg : String),
      validPlatform p = true → env.isUserExists p u = true →
      env.cache (followingsKey p u) = none →
      env.getFollowings p u = .ok fl →
      env.redisSetFails = some msg →
      fetchFollowingsHandler env ⟨some p, some u, none⟩ =
        { statusCode := 500, body := .internalError msg,
          calls := [.userExists p u, .listFollowings p u],
          cacheWrites := [], finalIndex := env.indexDocs }) ∧
    (∀ (env : FollowingsEnv) (p u : String) (fl : List FollowingUser) (msg : String),
      validPlatform p = true → env.isUserExists p u = true →
      env.cache (followingsKey p u) = none →
      env.getFollowings p u = .ok fl →
      env.redisSetFails = none → env.indexUpsertFails = some msg →
      fetchFollowingsHandler env ⟨some p, some u, none⟩ =
        { statusCode := 500, body := .internalError msg,
          calls := [.userExists p u, .listFollowings p u],
          cacheWrites := [(followingsKey p u, ⟨fl, env.now⟩)],
          finalIndex := env.indexDocs }) ∧
    (∀ (env : ContentsEnv) (p u : String) (since : Option String)
        (cs : List ContentItem) (msg : String),
      validPlatform p = true →
      env.cache (contentsKey p u (effSince since)) = none →
      env.fetchContent p u (effSince since) = .ok cs →
      env.redisSetFails = some msg →
      fetchContentsHandler env ⟨some p, some u, since⟩ =
        { result := .unhandledError msg,
          calls := [.listContent p u (effSince since)], cacheWrites := [] }) := by
  refine ⟨?_, ?_, ?_⟩
  · intro env p u fl msg hvp hex hcache hfetch hredis
    unfold fetchFollowingsHandler
    dsimp only
    rw [hvp, if_pos rfl, hex, if_neg (by simp), hcache]
    unfold liveFetchFollowings
    rw [hfetch, hredis]
    rfl
  · intro env p u fl msg hvp hex hcache hfetch hredis hupsert
    unfold fetchFollowingsHandler
    dsimp only
    rw [hvp, if_pos rfl, hex, if_neg (by simp), hcache]
    unfold liveFetchFollowings
    rw [hfetch, hredis, hupsert]
    rfl
  · intro env p u since cs msg hvp hcache hfetch hredis
    unfold fetchContentsHandler
    dsimp only
    rw [hvp, if_pos rfl, hcache, hfetch, hredis]

/-- Witness for the amended C2 at concrete environments with a throwing
`redis.set` (followings and contents) and a throwing `index.upsert`. -/
theorem c2_amended_witness :
    fetchFollowingsHandler wFEnvRedisFail ⟨some ("MEDIUM"), some ("bella"), none⟩ =
      { statusCode := 500, body := .internalError ("redis: connection refused"),
        calls := [.userExists ("MEDIUM") ("bella"), .listFollowings ("MEDIUM") ("bella")],
        cacheWrites := [], finalIndex := wFEnvRedisFail.indexDocs } ∧
    fetchFollowingsHandler wFEnvUpsertFail ⟨some ("MEDIUM"), some ("bella"), none⟩ =
      { statusCode := 500, body := .internalError ("search: upsert failed"),
        calls := [.userExists ("MEDIUM") ("bella"), .listFollowings ("MEDIUM") ("bella")],
        cacheWrites := [(followingsKey ("MEDIUM") ("bella"), ⟨[wBob], wFEnvUpsertFail.now⟩)],
        finalIndex := wFEnvUpsertFail.indexDocs } ∧
    fetchContentsHandler wCEnvRedisFail ⟨some ("MEDIUM"), some ("bella"), some ("today")⟩ =
      { result := .unhandledError ("redis: connection refused"),
        calls := [.listContent ("MEDIUM") ("bella") ("today")], cacheWrites := [] } :=
  ⟨c2_amended_write_failure.1 wFEnvRedisFail ("MEDIUM") ("bella") [wBob]
      "redis: connection refused" (by decide) (by decide) rfl rfl rfl,
   c2_amended_write_failure.2.1 wFEnvUpsertFail ("MEDIUM") ("bella") [wBob]
      "search: upsert failed" (by decide) (by decide) rfl rfl rfl rfl,
   c2_amended_write_failure.2.2 wCEnvRedisFail ("MEDIUM") ("bella") (some ("today")) []
      "redis: connection refused" (by decide) rfl rfl rfl⟩

/-! ## C8: search results are filtered to the requested platform and parent -/

/-- Reduction of the fetch-followings handler on the search branch (valid
platform, existing user, non-empty trimmed query). -/
theorem handlerSearchEq (env : FollowingsEnv) (p u q : String)
    (hvp : validPlatform p = true) (hex : env.isUserExists p u = true)
    (hq : ¬(trimChars q = "")) :
    fetchFollowingsHandler env ⟨some p, some u, some q⟩ =
      (match env.cache (followingsKey p u) with
       | some cached =>
         if 0 < (searchFollowings env.indexDocs env.queryMatches p u (trimChars q)).length ∨
             cached.fetchedAt ≠ "" then
           { statusCode := 200,
             body := .followingsOk
               (searchFollowings env.indexDocs env.queryMatches p u (trimChars q))
               cached.fetchedAt,
             calls := [.userExists p u], cacheWrites := [], finalIndex := env.indexDocs }
         else liveFetchFollowings env p u (some (trimChars q))
       | none => liveFetchFollowings env p u (some (trimChars q))) := by
  unfold fetchFollowingsHandler
  dsimp only [Option.map]
  rw [hvp, if_pos rfl, hex, if_neg (by simp), if_neg hq]

/-- On the live-fetch tail with a search query, every returned following is
the projection of a document of the final index that matches the query and
both equality filters. -/
theorem liveFetchSearchResult (env : FollowingsEnv) (p u q2 : String)
    (fl : List FollowingUser) (fa : String)
    (hbody : (liveFetchFollowings env p u (some q2)).body = .followingsOk fl fa) :
    ∀ f ∈ fl, ∃ d,
      d ∈ ((liveFetchFollowings env p u (some q2)).finalIndex.map Prod.snd) ∧
      env.queryMatches q2 d = true ∧ d.platformName = p ∧ d.parentUsername = u ∧
      f = projectDoc d := by
  unfold liveFetchFollowings at hbody ⊢
  cases hg : env.getFollowings p u
  case error msg =>
    rw [hg] at hbody
    simp at hbody
  case ok followings =>
    rw [hg] at hbody
    dsimp only at hbody ⊢
    cases hr : env.redisSetFails
    case some msg =>
      rw [hr] at hbody
      simp at hbody
    case none =>
      rw [hr] at hbody
      dsimp only at hbody ⊢
      cases hup : env.indexUpsertFails
      case some msg =>
        rw [hup] at hbody
        simp at hbody
      case none =>
        rw [hup] at hbody
        dsimp only at hbody ⊢
        injection hbody with h1 h2
        subst h1
        intro f hf
        exact mem_searchFollowings hf

/-- C8: for every followings request carrying a (non-empty, trimmed) search
query by an existing user, whenever the handler answers with a followings
list, every returned following is the projection of an indexed document whose
platformName is the requested platform and whose parentUsername is the
requested username (a document of a different parent never appears); and when
a prior cache entry exists (its serialized fetchedAt being a non-empty
string), the results are paired with that cached fetchedAt. -/
theorem c8_search_filtered (env : FollowingsEnv) (p u q : String)
    (hvp : validPlatform p = true) (hex : env.isUserExists p u = true)
    (hq : ¬(trimChars q = "")) (fl : List FollowingUser) (fa : String)
    (hbody : (fetchFollowingsHandler env ⟨some p, some u, some q⟩).body =
      .followingsOk fl fa) :
    (∀ f ∈ fl, ∃ d,
      d ∈ ((fetchFollowingsHandler env ⟨some p, some u, some q⟩).finalIndex.map Prod.snd) ∧
      env.queryMatches (trimChars q) d = true ∧ d.platformName = p ∧
      d.parentUsername = u ∧ f = projectDoc d) ∧
    (∀ cached, env.cache (followingsKey p u) = some cached →
      cached.fetchedAt ≠ "" → fa = cached.fetchedAt) := by
  rw [handlerSearchEq env p u q hvp hex hq] at hbody ⊢
  rcases hc : env.cache (followingsKey p u) with _ | cached
  · rw [hc] at hbody
    dsimp only at hbody ⊢
    refine ⟨liveFetchSearchResult env p u (trimChars q) fl fa hbody, ?_⟩
    intro cached2 hcached2 _
    cases hcached2
  · rw [hc] at hbody
    dsimp only at hbody ⊢
    by_cases hcond :
        0 < (searchFollowings env.indexDocs env.queryMatches p u (trimChars q)).length ∨
          cached.fetchedAt ≠ ""
    · rw [if_pos hcond] at hbody ⊢
      dsimp only at hbody ⊢
      injection hbody with h1 h2
      subst h1
      subst h2
      constructor
      · intro f hf
        exact mem_searchFollowings hf
      · intro cached2 hcached2 _
        injection hcached2 with h3
        rw [h3]
    · rw [if_neg hcond] at hbody ⊢
      push_neg at hcond
      obtain ⟨_, hfa0⟩ := hcond
      refine ⟨liveFetchSearchResult env p u (trimChars q) fl fa hbody, ?_⟩
      intro cached2 hcached2 hne
      injection hcached2 with h3
      rw [← h3] at hne
      exact absurd hfa0 hne

/-- Witness for C8: a warm-cache search request against an index holding one
document of the requested parent and one of a different parent; the handler
returns only the former's projection, paired with the cached fetchedAt. -/
theorem c8_witness :
    (∀ f ∈ [projectDoc wDocGood], ∃ d,
      d ∈ ((fetchFollowingsHandler wFEnvSearch
        ⟨some ("MEDIUM"), some ("alice"), some ("jm")⟩).finalIndex.map Prod.snd) ∧
      wFEnvSearch.queryMatches (trimChars ("jm")) d = true ∧ d.platformName = "MEDIUM" ∧
      d.parentUsername = "alice" ∧ f = projectDoc d) ∧
    (∀ cached, wFEnvSearch.cache (followingsKey ("MEDIUM") ("alice")) = some cached →
      cached.fetchedAt ≠ "" → wCachedDTO.fetchedAt = cached.fetchedAt) :=
  c8_search_filtered wFEnvSearch ("MEDIUM") ("alice") ("jm") (by decide) (by decide) (by decide)
    [projectDoc wDocGood] wCachedDTO.fetchedAt (by decide)

/-! ## C9: the since parameter is never validated -/

/-- Reduction of the fetch-contents handler on a valid request. -/
theorem contentsHandlerValid (env : ContentsEnv) (p u : String) (since : Option String)
    (hvp : validPlatform p = true) :
    fetchContentsHandler env ⟨some p, some u, since⟩ =
      (match env.cache (contentsKey p u (effSince since)) with
       | some entry =>
         { result := .response 200 (.contentsOk entry.contents entry.fetchedAt),
           calls := [], cacheWrites := [] }
       | none =>
         match env.fetchContent p u (effSince since) with
         | .error msg =>
           { result := .unhandledError msg,
             calls := [.listContent p u (effSince since)], cacheWrites := [] }
         | .ok contents =>
           match env.redisSetFails with
           | some msg =>
             { result := .unhandledError msg,
               calls := [.listContent p u (effSince since)], cacheWrites := [] }
           | none =>
             { result := .response 200 (.contentsOk contents env.now),
               calls := [.listContent p u (effSince since)],
               cacheWrites := [(contentsKey p u (effSince since), ⟨contents, env.now⟩)] }) := by
  unfold fetchContentsHandler
  dsimp only
  rw [hvp, if_pos rfl]

/-- C9: the `since` query parameter is never validated - (a) a 400 validation
response occurs exactly when platformName or username is malformed, never
because of `since`; and for any valid platform and username and an arbitrary
`since` value, (b) every upstream call and (c) every cache write uses the key
`contents:{platform}:{username}:{since}` with the raw `since` value (default
"all" when absent or empty), and (d) a cache hit under that exact key is
answered verbatim. -/
theorem c9_since_unvalidated :
    (∀ (env : ContentsEnv) (req : ContentsRequest),
      (fetchContentsHandler env req).result = .response 400 .validationError ↔
        isValidContentsRequest req = false) ∧
    (∀ (env : ContentsEnv) (p u : String) (since : Option String),
      validPlatform p = true →
      (∀ c ∈ (fetchContentsHandler env ⟨some p, some u, since⟩).calls,
        c = .listContent p u (effSince since)) ∧
      (∀ kv ∈ (fetchContentsHandler env ⟨some p, some u, since⟩).cacheWrites,
        kv.1 = contentsKey p u (effSince since)) ∧
      (∀ entry, env.cache (contentsKey p u (effSince since)) = some entry →
        fetchContentsHandler env ⟨some p, some u, since⟩ =
          { result := .response 200 (.contentsOk entry.contents entry.fetchedAt),
            calls := [], cacheWrites := [] })) := by
  constructor
  · intro env req
    obtain ⟨pn, un, sn⟩ := req
    cases pn with
    | none => simp [fetchContentsHandler, isValidContentsRequest]
    | some p =>
      cases un with
      | none => simp [fetchContentsHandler, isValidContentsRequest]
      | some u =>
        by_cases hvp : validPlatform p = true
        · rw [contentsHandlerValid env p u sn hvp]
          simp only [isValidContentsRequest, hvp]
          constructor
          · intro hres
            exfalso
            rcases hc : env.cache (contentsKey p u (effSince sn)) with _ | entry
            · rw [hc] at hres
              rcases hf : env.fetchContent p u (effSince sn) with msg | cs
              · rw [hf] at hres
                simp at hres
              · rw [hf] at hres
                rcases hr : env.redisSetFails with _ | msg
                · rw [hr] at hres
                  simp at hres
                · rw [hr] at hres
                  simp at hres
            · rw [hc] at hres
              simp at hres
          · intro hfalse
            simp at hfalse
        · have hvp2 : validPlatform p = false := by
            cases h : validPlatform p
            · rfl
            · exact absurd h hvp
          unfold fetchContentsHandler
          dsimp only
          rw [hvp2]
          simp [isValidContentsRequest, hvp2]
  · intro env p u since hvp
    rw [contentsHandlerValid env p u since hvp]
    rcases hc : env.cache (contentsKey p u (effSince since)) with _ | entry
    · rcases hf : env.fetchContent p u (effSince since) with msg | cs
      · refine ⟨?_, ?_, ?_⟩
        · intro c hcmem
          simp at hcmem
          exact hcmem
        · intro kv hkv
          simp at hkv
        · intro entry hentry
          cases hentry
      · rcases hr : env.redisSetFails with _ | msg
        · refine ⟨?_, ?_, ?_⟩
          · intro c hcmem
            simp at hcmem
            exact hcmem
          · intro kv hkv
            simp at hkv
            rw [hkv]
          · intro entry hentry
            cases hentry
        · refine ⟨?_, ?_, ?_⟩
          · intro c hcmem
            simp at hcmem
            exact hcmem
          · intro kv hkv
            simp at hkv
          · intro entry hentry
            cases hentry
    · refine ⟨?_, ?_, ?_⟩
      · intro c hcmem
        simp at hcmem
      · intro kv hkv
        simp at hkv
      · intro entry hentry
        injection hentry with h1
        rw [← h1]

/-- Witness for C9 at a concrete environment: an arbitrary unvalidated since
string is accepted and used verbatim in the key, and a cache hit under the
exact composite key is returned verbatim. -/
theorem c9_witness :
    ((fetchContentsHandler wCEnvHit
        ⟨some ("BADPLATFORM"), some ("alice"), some ("x!!~ weird")⟩).result =
      .response 400 .validationError ↔
        isValidContentsRequest ⟨some ("BADPLATFORM"), some ("alice"), some ("x!!~ weird")⟩ =
          false) ∧
    fetchContentsHandler wCEnvHit ⟨some ("MEDIUM"), some ("alice"), none⟩ =
      { result := .response 200 (.contentsOk ([] : List ContentItem) "t0"),
        calls := [], cacheWrites := [] } :=
  ⟨c9_since_unvalidated.1 wCEnvHit ⟨some ("BADPLATFORM"), some ("alice"), some ("x!!~ weird")⟩,
   (c9_since_unvalidated.2 wCEnvHit ("MEDIUM") ("alice") none (by decide)).2.2
     ⟨[], "t0"⟩ (by decide)⟩
